import Mathlib

/-!
Shallow embedding of the PersonSchedule scheduling core
(src/Dispensing_PS.py, src/Granulation_PS.py, src/Tab_PS.py,
src/Coating_PS.py, src/Formulation_PS.py, src/PS_GUI3.py).

Modelling conventions:
  * The external integer-programming solver (pulp) is a black box.  Each
    stage solve is therefore parameterized by a SolveOutcome: the integer
    status code returned by model.solve together with the variable values
    the solver reports.  The theorems that need a correct solver take the
    solver contract (status 1, Optimal, implies the reported assignment
    satisfies the model constraints) as a hypothesis.
  * Objective weights only shape which optimum the solver picks; they do
    not appear in any post-solve logic, so they are carried as an unused
    Weights record to mirror the call signatures.
  * Python float arithmetic on the small values involved (ceil of a
    division of machine integers, the buffer formula) is embedded with
    exact rationals.
-/

namespace PersonSchedule

/-- Python runtime value restricted to what the Dispensing status bug needs:
the result of model.solve is an int, while the literal it is compared with
is a str. -/
inductive PyVal where
  | int : Int → PyVal
  | str : String → PyVal
deriving DecidableEq, Repr

/-- Python inequality test between an int and a str (or within each type).
Values of distinct builtin types are never equal, so int vs str is
always unequal. -/
def pyNe : PyVal → PyVal → Bool
  | .int a, .int b => a ≠ b
  | .str a, .str b => a ≠ b
  | .int _, .str _ => true
  | .str _, .int _ => true

/-- The pulp.LpStatus table: integer solver status to status string.
Keys present in pulp are 0, 1, -1, -2, -3. -/
def LpStatus (c : Int) : String :=
  if c = 1 then "Optimal"
  else if c = 0 then "Not Solved"
  else if c = -1 then "Infeasible"
  else if c = -2 then "Unbounded"
  else "Undefined"

/-- The six objective weights shared by all four stage models.  They enter
only the objective of a model handed to the external solver, never any
post-solve computation. -/
structure Weights where
  w_staff : ℚ
  w_morning : ℚ
  w_evening : ℚ
  w_night : ℚ
  w_weekend : ℚ
  w_daysUsed : ℚ
deriving DecidableEq, Repr

/-- Variable values reported by one invocation of the external solver for
the Dispensing or Granulation model: one binary per shift and day
(M, E, N), the integer staff variable, and the dayUsed binaries. -/
structure ShiftAssign where
  M : Nat → Bool
  E : Nat → Bool
  N : Nat → Bool
  staff : Nat
  dayUsed : Nat → Bool

/-- Outcome of one invocation of the external solver: the integer status
code returned by model.solve (which also lands in model.status) and
the variable assignment the solver reports. -/
structure SolveOutcome (α : Type) where
  status : Int
  assign : α

/-- Number of days in 0..D-1 on which the binary day function is set. -/
def countTrue (f : Nat → Bool) (D : Nat) : Nat :=
  ∑ d in Finset.range D, (f d).toNat

/-- Weekend day predicate shared by all four stages: day 0 is a Monday,
so day indices congruent to 5 or 6 mod 7 are weekend days. -/
def isWeekend (d : Nat) : Bool :=
  d % 7 = 5 || d % 7 = 6

/-!  Dispensing stage (src/Dispensing_PS.py).  -/

/-- Needed days printed by the Dispensing capacity pre-check:
math.ceil(batches_required / 9). -/
def disp_precheck_needed_days (B : Nat) : Int :=
  ⌈(B : ℚ) / 9⌉

/-- Additional days printed by the Dispensing capacity pre-check:
needed_days - num_workdays. -/
def disp_precheck_more_days (B D : Nat) : Int :=
  disp_precheck_needed_days B - D

/-- Whether optimize_dispensing reaches the model.solve call, i.e. whether
the capacity pre-check passes.  Mirrors the early return at the top of
the function. -/
def disp_solver_invoked (B D : Nat) : Bool :=
  !(9 * D < B)

/-- Demand constraint left-hand side of the Dispensing model:
lpSum(M + E + N over all days) * 3. -/
def dispDemandLHS (D : Nat) (a : ShiftAssign) : Nat :=
  (∑ d in Finset.range D, ((a.M d).toNat + (a.E d).toNat + (a.N d).toNat)) * 3

/-- Constraint set of the Dispensing model, evaluated on a reported
assignment: the demand constraint, the per-day staff constraints
(staff at least 6 per active shift, additive within a day), and the
dayUsed linking constraints (dayUsed at least each shift binary). -/
def dispConstraints (B D : Nat) (a : ShiftAssign) : Prop :=
  B ≤ dispDemandLHS D a ∧
  (∀ d < D, 6 * ((a.M d).toNat + (a.E d).toNat + (a.N d).toNat) ≤ a.staff) ∧
  (∀ d < D, ((a.M d = true → a.dayUsed d = true) ∧
             (a.E d = true → a.dayUsed d = true) ∧
             (a.N d = true → a.dayUsed d = true)))

instance (B D : Nat) (a : ShiftAssign) : Decidable (dispConstraints B D a) := by
  unfold dispConstraints; infer_instance

/-- Result record returned by a successful Dispensing solve.  The
solver_status field stores whatever model.solve returned, hence a
Python value that is in fact an int. -/
structure DispResult where
  morning_shifts : Nat
  evening_shifts : Nat
  night_shifts : Nat
  total_batches_produced : Nat
  pct_demand_completed : ℚ
  min_staff_required : Nat
  staff_with_buffer : Int
  days_used : Nat
  num_workdays_horizon : Nat
  solver_status : PyVal
deriving DecidableEq, Repr

/-- Embedding of optimize_dispensing.  The capacity pre-check uses the
fixed 9 batches per day bound; then the status code returned by
model.solve is stored directly in solver_status and compared, with
Python inequality, against the string Optimal.  Since an int never
equals a str, the comparison always takes the infeasible branch. -/
def optimize_dispensing (B D : Nat) (buffer_ratio : ℚ) (_w : Weights)
    (o : SolveOutcome ShiftAssign) : Option DispResult :=
  if 9 * D < B then none
  else
    let solver_status := PyVal.int o.status
    if pyNe solver_status (PyVal.str ("Optimal")) then none
    else
      let morning_days := countTrue o.assign.M D
      let evening_days := countTrue o.assign.E D
      let night_days := countTrue o.assign.N D
      let min_staff := o.assign.staff
      let total_produced := 3 * (morning_days + evening_days + night_days)
      some
        { morning_shifts := morning_days
          evening_shifts := evening_days
          night_shifts := night_days
          total_batches_produced := total_produced
          pct_demand_completed :=
            if 0 < B then ((total_produced : ℚ) / B) * 100 else 0
          min_staff_required := min_staff
          staff_with_buffer := ⌈(min_staff : ℚ) * (1 + buffer_ratio)⌉
          days_used := countTrue o.assign.dayUsed D
          num_workdays_horizon := D
          solver_status := solver_status }

/-!  Granulation stage (src/Granulation_PS.py).  Identical model to
Dispensing, but the solver status is correctly translated through
pulp.LpStatus before the comparison.  -/

/-- Needed days printed by the Granulation capacity pre-check. -/
def gran_precheck_needed_days (B : Nat) : Int :=
  ⌈(B : ℚ) / 9⌉

/-- Additional days printed by the Granulation capacity pre-check. -/
def gran_precheck_more_days (B D : Nat) : Int :=
  gran_precheck_needed_days B - D

/-- Whether optimize_granulation reaches the model.solve call. -/
def gran_solver_invoked (B D : Nat) : Bool :=
  !(9 * D < B)

/-- Demand constraint left-hand side of the Granulation model. -/
def granDemandLHS (D : Nat) (a : ShiftAssign) : Nat :=
  (∑ d in Finset.range D, ((a.M d).toNat + (a.E d).toNat + (a.N d).toNat)) * 3

/-- Constraint set of the Granulation model on a reported assignment. -/
def granConstraints (B D : Nat) (a : ShiftAssign) : Prop :=
  B ≤ granDemandLHS D a ∧
  (∀ d < D, 6 * ((a.M d).toNat + (a.E d).toNat + (a.N d).toNat) ≤ a.staff) ∧
  (∀ d < D, ((a.M d = true → a.dayUsed d = true) ∧
             (a.E d = true → a.dayUsed d = true) ∧
             (a.N d = true → a.dayUsed d = true)))

instance (B D : Nat) (a : ShiftAssign) : Decidable (granConstraints B D a) := by
  unfold granConstraints; infer_instance

/-- Result record returned by a successful Granulation solve. -/
structure GranResult where
  morning_shifts : Nat
  evening_shifts : Nat
  night_shifts : Nat
  total_batches_produced : Nat
  pct_demand_completed : ℚ
  min_staff_required : Nat
  staff_with_buffer : Int
  days_used : Nat
  num_workdays_horizon : Nat
  solver_status : String
deriving DecidableEq, Repr

/-- Embedding of optimize_granulation. -/
def optimize_granulation (B D : Nat) (buffer_ratio : ℚ) (_w : Weights)
    (o : SolveOutcome ShiftAssign) : Option GranResult :=
  if 9 * D < B then none
  else
    let solver_status := LpStatus o.status
    if solver_status ≠ "Optimal" then none
    else
      let morning_days := countTrue o.assign.M D
      let evening_days := countTrue o.assign.E D
      let night_days := countTrue o.assign.N D
      let min_staff := o.assign.staff
      let total_produced := 3 * (morning_days + evening_days + night_days)
      some
        { morning_shifts := morning_days
          evening_shifts := evening_days
          night_shifts := night_days
          total_batches_produced := total_produced
          pct_demand_completed :=
            if 0 < B then ((total_produced : ℚ) / B) * 100 else 0
          min_staff_required := min_staff
          staff_with_buffer := ⌈(min_staff : ℚ) * (1 + buffer_ratio)⌉
          days_used := countTrue o.assign.dayUsed D
          num_workdays_horizon := D
          solver_status := solver_status }

/-!  Tableting stage (src/Tab_PS.py).  Up to three machines: P3030 at
1 batch per shift, P3090i at 2, IMA at 1, each needing 3 people per
active shift.  Disabled machines have their variables fixed to the
constant 0 in the source; the embedding gates them to 0.  -/

/-- Variable values reported by the solver for the Tableting model. -/
structure TabAssign where
  M_p3030 : Nat → Bool
  E_p3030 : Nat → Bool
  N_p3030 : Nat → Bool
  M_p3090i : Nat → Bool
  E_p3090i : Nat → Bool
  N_p3090i : Nat → Bool
  M_ima : Nat → Bool
  E_ima : Nat → Bool
  N_ima : Nat → Bool
  staff : Nat
  dayUsed : Nat → Bool

/-- Value of an activation variable that the source fixes to the constant
0 when the machine toggle is off. -/
def gate (use : Bool) (f : Nat → Bool) (d : Nat) : Nat :=
  if use then (f d).toNat else 0

/-- Summed batches per shift of the enabled Tableting machines:
1 for P3030, 2 for P3090i, 1 for IMA. -/
def tab_machine_output (use_p3030 use_p3090i use_ima : Bool) : Nat :=
  (if use_p3030 then 1 else 0) + (if use_p3090i then 2 else 0) +
    (if use_ima then 1 else 0)

/-- Maximum daily Tableting capacity: machine output times 3 shifts. -/
def tab_max_daily_batches (use_p3030 use_p3090i use_ima : Bool) : Nat :=
  tab_machine_output use_p3030 use_p3090i use_ima * 3

/-- Needed days printed by the Tableting capacity pre-check. -/
def tab_precheck_needed_days (B : Nat) (use_p3030 use_p3090i use_ima : Bool) : Int :=
  ⌈(B : ℚ) / (tab_max_daily_batches use_p3030 use_p3090i use_ima : ℚ)⌉

/-- Additional days printed by the Tableting capacity pre-check. -/
def tab_precheck_more_days (B D : Nat) (use_p3030 use_p3090i use_ima : Bool) : Int :=
  tab_precheck_needed_days B use_p3030 use_p3090i use_ima - D

/-- Whether optimize_tableting reaches the model.solve call: both the
structural check (no machine) and the capacity pre-check must pass. -/
def tab_solver_invoked (B D : Nat) (use_p3030 use_p3090i use_ima : Bool) : Bool :=
  !(tab_max_daily_batches use_p3030 use_p3090i use_ima = 0) &&
    !(tab_max_daily_batches use_p3030 use_p3090i use_ima * D < B)

/-- Sum of all nine (gated) activation variables of one Tableting day. -/
def tabDayShifts (up uq ui : Bool) (a : TabAssign) (d : Nat) : Nat :=
  gate up a.M_p3030 d + gate up a.E_p3030 d + gate up a.N_p3030 d +
  gate uq a.M_p3090i d + gate uq a.E_p3090i d + gate uq a.N_p3090i d +
  gate ui a.M_ima d + gate ui a.E_ima d + gate ui a.N_ima d

/-- Demand constraint left-hand side of the Tableting model: per day and
shift, P3030 yields 1, P3090i yields 2, IMA yields 1. -/
def tabDemandLHS (D : Nat) (up uq ui : Bool) (a : TabAssign) : Nat :=
  ∑ d in Finset.range D,
    ((gate up a.M_p3030 d * 1 + gate uq a.M_p3090i d * 2 + gate ui a.M_ima d * 1) +
     (gate up a.E_p3030 d * 1 + gate uq a.E_p3090i d * 2 + gate ui a.E_ima d * 1) +
     (gate up a.N_p3030 d * 1 + gate uq a.N_p3090i d * 2 + gate ui a.N_ima d * 1))

/-- Constraint set of the Tableting model on a reported assignment:
demand, per-day staff (3 people per active machine shift, additive
within a day), and the fractional dayUsed link
(dayUsed at least the day total divided by 9). -/
def tabConstraints (B D : Nat) (up uq ui : Bool) (a : TabAssign) : Prop :=
  B ≤ tabDemandLHS D up uq ui a ∧
  (∀ d < D, 3 * tabDayShifts up uq ui a d ≤ a.staff) ∧
  (∀ d < D, (tabDayShifts up uq ui a d : ℚ) / 9 ≤ ((a.dayUsed d).toNat : ℚ))

instance (B D : Nat) (up uq ui : Bool) (a : TabAssign) :
    Decidable (tabConstraints B D up uq ui a) := by
  unfold tabConstraints; infer_instance

/-- Per-machine shift totals of a Tableting result. -/
structure TabShiftCounts where
  P3030 : Nat
  P3090i : Nat
  IMA : Nat
deriving DecidableEq, Repr

/-- Result record returned by a successful Tableting solve. -/
structure TabResult where
  morning_shifts : TabShiftCounts
  evening_shifts : TabShiftCounts
  night_shifts : TabShiftCounts
  total_batches_produced : Nat
  pct_demand_completed : ℚ
  min_staff_required : Nat
  staff_with_buffer : Int
  days_used : Nat
  num_workdays_horizon : Nat
  solver_status : String
deriving DecidableEq, Repr

/-- Per-machine summed shift count as extracted by the source: the
variable values are summed when the machine is enabled, else 0. -/
def gatedShiftSum (use : Bool) (f : Nat → Bool) (D : Nat) : Nat :=
  if use then countTrue f D else 0

/-- Embedding of optimize_tableting.  The structural check (no machine
enabled) precedes the capacity pre-check; the solver status is
translated through pulp.LpStatus; total production is re-evaluated
from the demand constraint expression. -/
def optimize_tableting (B D : Nat) (use_p3030 use_p3090i use_ima : Bool)
    (buffer_ratio : ℚ) (_w : Weights) (o : SolveOutcome TabAssign) :
    Option TabResult :=
  let max_daily_batches := tab_max_daily_batches use_p3030 use_p3090i use_ima
  if max_daily_batches = 0 then none
  else if max_daily_batches * D < B then none
  else
    let solver_status := LpStatus o.status
    if solver_status ≠ "Optimal" then none
    else
      let a := o.assign
      let min_staff := a.staff
      some
        { morning_shifts :=
            { P3030 := gatedShiftSum use_p3030 a.M_p3030 D
              P3090i := gatedShiftSum use_p3090i a.M_p3090i D
              IMA := gatedShiftSum use_ima a.M_ima D }
          evening_shifts :=
            { P3030 := gatedShiftSum use_p3030 a.E_p3030 D
              P3090i := gatedShiftSum use_p3090i a.E_p3090i D
              IMA := gatedShiftSum use_ima a.E_ima D }
          night_shifts :=
            { P3030 := gatedShiftSum use_p3030 a.N_p3030 D
              P3090i := gatedShiftSum use_p3090i a.N_p3090i D
              IMA := gatedShiftSum use_ima a.N_ima D }
          total_batches_produced := tabDemandLHS D use_p3030 use_p3090i use_ima a
          pct_demand_completed :=
            if 0 < B then
              ((tabDemandLHS D use_p3030 use_p3090i use_ima a : ℚ) / B) * 100
            else 0
          min_staff_required := min_staff
          staff_with_buffer := ⌈(min_staff : ℚ) * (1 + buffer_ratio)⌉
          days_used := countTrue a.dayUsed D
          num_workdays_horizon := D
          solver_status := solver_status }

/-!  Coating stage (src/Coating_PS.py).  A Solution sub-process (always
present, 4 batches per shift, 2 people) plus up to two coating
machines BOSCH and GLATT (2 batches per shift, 2 people each).  -/

/-- Variable values reported by the solver for the Coating model. -/
structure CoatAssign where
  M_solution : Nat → Bool
  E_solution : Nat → Bool
  N_solution : Nat → Bool
  M_bosch : Nat → Bool
  E_bosch : Nat → Bool
  N_bosch : Nat → Bool
  M_glatt : Nat → Bool
  E_glatt : Nat → Bool
  N_glatt : Nat → Bool
  staff : Nat
  dayUsed : Nat → Bool

/-- Number of enabled coating machines. -/
def coating_machines_used (use_bosch use_glatt : Bool) : Nat :=
  (if use_bosch then 1 else 0) + (if use_glatt then 1 else 0)

/-- Maximum daily coating capacity: 2 batches per shift per enabled
machine, times 3 shifts. -/
def coat_max_daily_coating (use_bosch use_glatt : Bool) : Nat :=
  2 * coating_machines_used use_bosch use_glatt * 3

/-- Needed days printed when the Solution capacity pre-check fires:
math.ceil(batches_required / 12). -/
def coat_precheck_needed_days_solution (B : Nat) : Int :=
  ⌈(B : ℚ) / 12⌉

/-- Needed days printed when the coating capacity pre-check fires. -/
def coat_precheck_needed_days_coating (B : Nat) (use_bosch use_glatt : Bool) : Int :=
  ⌈(B : ℚ) / (coat_max_daily_coating use_bosch use_glatt : ℚ)⌉

/-- Whether optimize_coating reaches the model.solve call: the machine
count check and both capacity pre-checks (Solution at 12 per day,
coating at the machine-dependent bound) must pass. -/
def coat_solver_invoked (B D : Nat) (use_bosch use_glatt : Bool) : Bool :=
  !(coating_machines_used use_bosch use_glatt = 0) &&
    !(12 * D < B) &&
    !(coat_max_daily_coating use_bosch use_glatt * D < B)

/-- Demand constraint left-hand side for the Solution sub-process:
4 batches per active Solution shift. -/
def coatSolutionLHS (D : Nat) (a : CoatAssign) : Nat :=
  ∑ d in Finset.range D,
    (4 * (a.M_solution d).toNat + 4 * (a.E_solution d).toNat +
     4 * (a.N_solution d).toNat)

/-- Demand constraint left-hand side for the coating machines:
2 batches per active BOSCH or GLATT shift, gated by the toggles. -/
def coatCoatingLHS (D : Nat) (ub ug : Bool) (a : CoatAssign) : Nat :=
  ∑ d in Finset.range D,
    ((2 * gate ub a.M_bosch d + 2 * gate ug a.M_glatt d) +
     (2 * gate ub a.E_bosch d + 2 * gate ug a.E_glatt d) +
     (2 * gate ub a.N_bosch d + 2 * gate ug a.N_glatt d))

/-- Total staff demanded on one Coating day: 2 people per active process
in each of the three shifts, additive across the shifts of the day. -/
def coatDayStaff (ub ug : Bool) (a : CoatAssign) (d : Nat) : Nat :=
  2 * ((a.M_solution d).toNat + gate ub a.M_bosch d + gate ug a.M_glatt d) +
  2 * ((a.E_solution d).toNat + gate ub a.E_bosch d + gate ug a.E_glatt d) +
  2 * ((a.N_solution d).toNat + gate ub a.N_bosch d + gate ug a.N_glatt d)

/-- Sum of all nine (gated) activation variables of one Coating day. -/
def coatDayShifts (ub ug : Bool) (a : CoatAssign) (d : Nat) : Nat :=
  (a.M_solution d).toNat + (a.E_solution d).toNat + (a.N_solution d).toNat +
  gate ub a.M_bosch d + gate ub a.E_bosch d + gate ub a.N_bosch d +
  gate ug a.M_glatt d + gate ug a.E_glatt d + gate ug a.N_glatt d

/-- Constraint set of the Coating model on a reported assignment: both
demand constraints, the per-day staff constraints, and the fractional
dayUsed link. -/
def coatConstraints (B D : Nat) (ub ug : Bool) (a : CoatAssign) : Prop :=
  B ≤ coatSolutionLHS D a ∧
  B ≤ coatCoatingLHS D ub ug a ∧
  (∀ d < D, coatDayStaff ub ug a d ≤ a.staff) ∧
  (∀ d < D, (coatDayShifts ub ug a d : ℚ) / 9 ≤ ((a.dayUsed d).toNat : ℚ))

instance (B D : Nat) (ub ug : Bool) (a : CoatAssign) :
    Decidable (coatConstraints B D ub ug a) := by
  unfold coatConstraints; infer_instance

/-- Per-process shift totals of a Coating result. -/
structure CoatShiftCounts where
  Solution : Nat
  BOSCH : Nat
  GLATT : Nat
deriving DecidableEq, Repr

/-- Result record returned by a successful Coating solve. -/
structure CoatResult where
  morning_shifts : CoatShiftCounts
  evening_shifts : CoatShiftCounts
  night_shifts : CoatShiftCounts
  total_solution_produced : Nat
  total_coating_produced : Nat
  final_batches_count : Nat
  pct_demand_completed : ℚ
  min_staff_required : Nat
  staff_with_buffer : Int
  days_used : Nat
  num_workdays_horizon : Nat
  solver_status : String
deriving DecidableEq, Repr

/-- Embedding of optimize_coating.  The machine count check precedes the
two capacity pre-checks; the solver status is translated through
pulp.LpStatus; the final batch count is the minimum of the Solution
and coating totals. -/
def optimize_coating (B D : Nat) (use_bosch use_glatt : Bool)
    (buffer_ratio : ℚ) (_w : Weights) (o : SolveOutcome CoatAssign) :
    Option CoatResult :=
  if coating_machines_used use_bosch use_glatt = 0 then none
  else if 12 * D < B then none
  else if coat_max_daily_coating use_bosch use_glatt * D < B then none
  else
    let solver_status := LpStatus o.status
    if solver_status ≠ "Optimal" then none
    else
      let a := o.assign
      let min_staff := a.staff
      let total_solution_produced := coatSolutionLHS D a
      let total_coating_produced := coatCoatingLHS D use_bosch use_glatt a
      let final_batches := min total_solution_produced total_coating_produced
      some
        { morning_shifts :=
            { Solution := countTrue a.M_solution D
              BOSCH := gatedShiftSum use_bosch a.M_bosch D
              GLATT := gatedShiftSum use_glatt a.M_glatt D }
          evening_shifts :=
            { Solution := countTrue a.E_solution D
              BOSCH := gatedShiftSum use_bosch a.E_bosch D
              GLATT := gatedShiftSum use_glatt a.E_glatt D }
          night_shifts :=
            { Solution := countTrue a.N_solution D
              BOSCH := gatedShiftSum use_bosch a.N_bosch D
              GLATT := gatedShiftSum use_glatt a.N_glatt D }
          total_solution_produced := total_solution_produced
          total_coating_produced := total_coating_produced
          final_batches_count := final_batches
          pct_demand_completed :=
            if 0 < B then ((final_batches : ℚ) / B) * 100 else 0
          min_staff_required := min_staff
          staff_with_buffer := ⌈(min_staff : ℚ) * (1 + buffer_ratio)⌉
          days_used := countTrue a.dayUsed D
          num_workdays_horizon := D
          solver_status := solver_status }

/-!  Stage aggregator (src/Formulation_PS.py, optimize_osd_schedule).  -/

/-- Consolidated result of one aggregator call: the four stage results
plus the two summed staffing fields added at the end of
optimize_osd_schedule. -/
structure CombinedResult where
  dispensing : DispResult
  granulation : GranResult
  tableting : TabResult
  coating : CoatResult
  total_min_staff_summed : Nat
  total_staff_with_buffer_summed : Int
deriving DecidableEq, Repr

/-- Solver outcomes for the four stage solves of one aggregator call. -/
structure OsdOracles where
  disp : SolveOutcome ShiftAssign
  gran : SolveOutcome ShiftAssign
  tab : SolveOutcome TabAssign
  coat : SolveOutcome CoatAssign

/-- The combination step at the end of optimize_osd_schedule: package the
four stage results and sum the minimal and buffered staff counts. -/
def osdCombine (dr : DispResult) (gr : GranResult) (tr : TabResult)
    (cr : CoatResult) : CombinedResult :=
  { dispensing := dr
    granulation := gr
    tableting := tr
    coating := cr
    total_min_staff_summed :=
      dr.min_staff_required + gr.min_staff_required +
        tr.min_staff_required + cr.min_staff_required
    total_staff_with_buffer_summed :=
      dr.staff_with_buffer + gr.staff_with_buffer +
        tr.staff_with_buffer + cr.staff_with_buffer }

/-- Control-flow skeleton of optimize_osd_schedule over the four stage
call results: check Dispensing first, short-circuit to none on the
first stage failure, combine on full success. -/
def osdSequence (d : Option DispResult) (g : Option GranResult)
    (t : Option TabResult) (c : Option CoatResult) : Option CombinedResult :=
  match d with
  | none => none
  | some dr =>
    match g with
    | none => none
    | some gr =>
      match t with
      | none => none
      | some tr =>
        match c with
        | none => none
        | some cr => some (osdCombine dr gr tr cr)

/-- The four stages in their fixed aggregator order. -/
inductive StageName where
  | dispensing
  | granulation
  | tableting
  | coating
deriving DecidableEq, Repr

/-- Stage solves actually executed by optimize_osd_schedule, in order:
Python returns early after the first stage that yields None, so later
stage models are never solved. -/
def osdInvoked (d : Option DispResult) (g : Option GranResult)
    (t : Option TabResult) : List StageName :=
  .dispensing ::
    match d with
    | none => []
    | some _ =>
      .granulation ::
        match g with
        | none => []
        | some _ =>
          .tableting ::
            match t with
            | none => []
            | some _ => [.coating]

/-- Embedding of optimize_osd_schedule: run the four stage solves in the
fixed order with per-stage demands but the shared horizon, buffer ratio
and weights, short-circuiting on the first failure. -/
def optimize_osd_schedule (dB gB tB cB D : Nat)
    (use_p3030 use_p3090i use_ima use_bosch use_glatt : Bool)
    (buffer_ratio : ℚ) (w : Weights) (o : OsdOracles) : Option CombinedResult :=
  osdSequence
    (optimize_dispensing dB D buffer_ratio w o.disp)
    (optimize_granulation gB D buffer_ratio w o.gran)
    (optimize_tableting tB D use_p3030 use_p3090i use_ima buffer_ratio w o.tab)
    (optimize_coating cB D use_bosch use_glatt buffer_ratio w o.coat)

/-!  Horizon search (src/Formulation_PS.py,
optimize_osd_schedule_with_total).  -/

/-- The horizon-stepping loop of optimize_osd_schedule_with_total: while
the current result is None and the current day count is at most 365,
add 7 days and retry; return the final result together with the final
day count. -/
def searchDays (probe : Nat → Option CombinedResult) (cd : Nat)
    (result : Option CombinedResult) : Option CombinedResult × Nat :=
  match result with
  | some r => (some r, cd)
  | none =>
    if cd ≤ 365 then searchDays probe (cd + 7) (probe (cd + 7))
    else (none, cd)
termination_by 366 - cd
decreasing_by omega

/-- Completion-day estimate of optimize_osd_schedule_with_total: the
Python max of the Dispensing day count offset by 0, 1, 2 and 3 for
the four pipeline positions. -/
def totalDaysNeeded (r : CombinedResult) : Nat :=
  max (max (max r.dispensing.days_used (r.dispensing.days_used + 1))
        (r.dispensing.days_used + 2))
    (r.dispensing.days_used + 3)

/-- Result of optimize_osd_schedule_with_total: the feasible combined
schedule with the two keys added on success. -/
structure TotalResult where
  schedule : CombinedResult
  total_days_needed : Nat
  workdays_allocated : Nat
deriving DecidableEq, Repr

/-- Aggregator probe used by the horizon search: the single total batch
target applied identically to all four stage demands, at the probed
horizon. -/
def osdTotalProbe (total_batches : Nat)
    (use_p3030 use_p3090i use_ima use_bosch use_glatt : Bool)
    (buffer_ratio : ℚ) (w : Weights) (oracles : Nat → OsdOracles)
    (d : Nat) : Option CombinedResult :=
  optimize_osd_schedule total_batches total_batches total_batches
    total_batches d use_p3030 use_p3090i use_ima use_bosch use_glatt
    buffer_ratio w (oracles d)

/-- Embedding of optimize_osd_schedule_with_total: probe the aggregator
with the same batch target for all four stages at the initial horizon,
step the horizon by 7 while infeasible and at most 365, and on success
attach the completion-day estimate and the allocated horizon. -/
def optimize_osd_schedule_with_total (total_batches initial_workdays : Nat)
    (use_p3030 use_p3090i use_ima use_bosch use_glatt : Bool)
    (buffer_ratio : ℚ) (w : Weights) (oracles : Nat → OsdOracles) :
    Option TotalResult :=
  let probe := osdTotalProbe total_batches use_p3030 use_p3090i use_ima
    use_bosch use_glatt buffer_ratio w oracles
  match searchDays probe initial_workdays (probe initial_workdays) with
  | (none, _) => none
  | (some r, current_days) =>
    some
      { schedule := r
        total_days_needed := totalDaysNeeded r
        workdays_allocated := current_days }

/-!  Throughput search (src/Formulation_PS.py, optimize_max_batches).  -/

/-- The bounded binary-search loop of optimize_max_batches.  The fuel is
the remaining iteration budget; the loop also ends once the bounds
cross.  Each probe at the midpoint either records a feasible combined
result and raises the lower bound, or lowers the upper bound. -/
def maxBatchesLoop (probe : Nat → Option CombinedResult) :
    Nat → Nat → Nat → Option (CombinedResult × Nat) →
      Option (CombinedResult × Nat)
  | 0, _, _, best => best
  | fuel + 1, lo, hi, best =>
    if lo ≤ hi then
      match probe ((lo + hi) / 2) with
      | some r =>
        maxBatchesLoop probe fuel ((lo + hi) / 2 + 1) hi
          (some (r, (lo + hi) / 2))
      | none => maxBatchesLoop probe fuel lo ((lo + hi) / 2 - 1) best
    else best

/-- Batch counts at which the loop invokes the aggregator, in probe
order; mirrors the control flow of maxBatchesLoop exactly. -/
def maxBatchesProbed (probe : Nat → Option CombinedResult) :
    Nat → Nat → Nat → List Nat
  | 0, _, _ => []
  | fuel + 1, lo, hi =>
    if lo ≤ hi then
      (lo + hi) / 2 ::
        match probe ((lo + hi) / 2) with
        | some _ => maxBatchesProbed probe fuel ((lo + hi) / 2 + 1) hi
        | none => maxBatchesProbed probe fuel lo ((lo + hi) / 2 - 1)
    else []

/-- Result of optimize_max_batches: the best feasible combined schedule
with the maximum feasible batch count attached. -/
structure MaxBatchesResult where
  schedule : CombinedResult
  max_feasible_batches : Nat
deriving DecidableEq, Repr

/-- Embedding of optimize_max_batches: binary search between 1 and
num_workdays * 27 with the given iteration budget (50 in the source
signature), returning the recorded best feasible result or none. -/
def optimize_max_batches (D : Nat) (max_iterations : Nat)
    (probe : Nat → Option CombinedResult) : Option MaxBatchesResult :=
  match maxBatchesLoop probe max_iterations 1 (D * 27) none with
  | none => none
  | some (r, b) => some { schedule := r, max_feasible_batches := b }

/-- Aggregator probe used by optimize_max_batches: the same batch count
for all four stage demands at the fixed horizon. -/
def maxBatchesProbe (D : Nat)
    (use_p3030 use_p3090i use_ima use_bosch use_glatt : Bool)
    (buffer_ratio : ℚ) (w : Weights) (oracles : Nat → OsdOracles)
    (b : Nat) : Option CombinedResult :=
  optimize_osd_schedule b b b b D use_p3030 use_p3090i use_ima use_bosch
    use_glatt buffer_ratio w (oracles b)

/-!  Module-level import structure (src/PS_GUI3.py and the stage
modules), used for the import-failure analysis.  -/

/-- The six Python modules of the repository. -/
inductive PyModule where
  | dispensing_PS
  | granulation_PS
  | tab_PS
  | coating_PS
  | formulation_PS
  | ps_GUI3
deriving DecidableEq, Repr

/-- From-imports between repository modules: for each module, the list of
(source module, imported name) pairs appearing in its import lines.
Imports of external packages (math, pulp, tkinter, pandas, matplotlib,
json, datetime) are not listed since they resolve independently. -/
def fromImports : PyModule → List (PyModule × String)
  | .dispensing_PS => [(.ps_GUI3, "SOLVER_INSTANCE")]
  | .granulation_PS => [(.ps_GUI3, "SOLVER_INSTANCE")]
  | .tab_PS => [(.ps_GUI3, "solver")]
  | .coating_PS => []
  | .formulation_PS =>
    [(.dispensing_PS, "optimize_dispensing"),
     (.granulation_PS, "optimize_granulation"),
     (.tab_PS, "optimize_tableting"),
     (.coating_PS, "optimize_coating")]
  | .ps_GUI3 =>
    [(.formulation_PS, "optimize_osd_schedule"),
     (.formulation_PS, "optimize_osd_schedule_with_total"),
     (.formulation_PS, "optimize_max_batches"),
     (.dispensing_PS, "optimize_dispensing"),
     (.granulation_PS, "optimize_granulation"),
     (.tab_PS, "optimize_tableting"),
     (.coating_PS, "optimize_coating")]

/-- Every name bound at the top level of each module, i.e. every
attribute the fully initialized module would expose: its own def and
class statements plus the names bound by its import lines. -/
def moduleBindings : PyModule → List String
  | .dispensing_PS => ["math", "pulp", "SOLVER_INSTANCE", "optimize_dispensing"]
  | .granulation_PS => ["math", "pulp", "SOLVER_INSTANCE", "optimize_granulation"]
  | .tab_PS => ["math", "pulp", "solver", "optimize_tableting"]
  | .coating_PS => ["math", "pulp", "safe_value", "optimize_coating"]
  | .formulation_PS =>
    ["math", "pulp", "optimize_dispensing", "optimize_granulation",
     "optimize_tableting", "optimize_coating", "optimize_osd_schedule",
     "optimize_osd_schedule_with_total", "optimize_max_batches"]
  | .ps_GUI3 =>
    ["tk", "ttk", "messagebox", "StringVar", "DoubleVar", "IntVar", "pd",
     "optimize_osd_schedule", "optimize_osd_schedule_with_total",
     "optimize_max_batches", "optimize_dispensing", "optimize_granulation",
     "optimize_tableting", "optimize_coating", "Figure", "FigureCanvasTkAgg",
     "json", "datetime", "ModernProductionSchedulerGUI", "main"]

/-- Necessary condition for a module to finish loading: every repository
from-import must name an attribute that the source module exposes even
when fully initialized.  Circular imports can only make loading fail
earlier, never later, so failure of this condition is failure of the
real load. -/
def importOk (m : PyModule) : Prop :=
  ∀ pn ∈ fromImports m, pn.2 ∈ moduleBindings pn.1

instance (m : PyModule) : Decidable (importOk m) := by
  unfold importOk; infer_instance

/-- Repository modules a module imports directly. -/
def directDeps (m : PyModule) : List PyModule :=
  (fromImports m).map (fun pn => pn.1)

/-- Fuel-bounded reachability in the import graph, starting from a
module and following direct dependencies. -/
def importReach : Nat → List PyModule → List PyModule
  | 0, ms => ms
  | fuel + 1, ms =>
    let next := (ms.flatMap directDeps).filter (fun p => !(ms.contains p))
    match next with
    | [] => ms
    | _ => importReach fuel (ms ++ next)

/-- Loading a module executes, transitively, the import lines of every
module it reaches in the import graph; six steps of closure suffice
for a six-module graph.  Loading can only succeed if all of them
resolve. -/
def moduleLoadOk (m : PyModule) : Prop :=
  ∀ p ∈ importReach 6 [m], importOk p

instance (m : PyModule) : Decidable (moduleLoadOk m) := by
  unfold moduleLoadOk; infer_instance

/-!  Shared concrete values used by witnesses and counterexamples.  -/

/-- The default weight values of the source signatures. -/
def defaultWeights : Weights :=
  { w_staff := 100
    w_morning := 0
    w_evening := 1 / 10
    w_night := 2
    w_weekend := 3
    w_daysUsed := 1 }

/-- The all-zero Dispensing or Granulation solution. -/
def zeroShiftAssign : ShiftAssign :=
  { M := fun _ => false
    E := fun _ => false
    N := fun _ => false
    staff := 0
    dayUsed := fun _ => false }

/-- The all-zero Tableting solution. -/
def zeroTabAssign : TabAssign :=
  { M_p3030 := fun _ => false
    E_p3030 := fun _ => false
    N_p3030 := fun _ => false
    M_p3090i := fun _ => false
    E_p3090i := fun _ => false
    N_p3090i := fun _ => false
    M_ima := fun _ => false
    E_ima := fun _ => false
    N_ima := fun _ => false
    staff := 0
    dayUsed := fun _ => false }

/-- The all-zero Coating solution. -/
def zeroCoatAssign : CoatAssign :=
  { M_solution := fun _ => false
    E_solution := fun _ => false
    N_solution := fun _ => false
    M_bosch := fun _ => false
    E_bosch := fun _ => false
    N_bosch := fun _ => false
    M_glatt := fun _ => false
    E_glatt := fun _ => false
    N_glatt := fun _ => false
    staff := 0
    dayUsed := fun _ => false }

/-- A Dispensing or Granulation solution running every morning shift. -/
def morningShiftAssign : ShiftAssign :=
  { M := fun _ => true
    E := fun _ => false
    N := fun _ => false
    staff := 6
    dayUsed := fun _ => true }

/-- A Tableting solution running every machine every morning. -/
def morningTabAssign : TabAssign :=
  { M_p3030 := fun _ => true
    E_p3030 := fun _ => false
    N_p3030 := fun _ => false
    M_p3090i := fun _ => true
    E_p3090i := fun _ => false
    N_p3090i := fun _ => false
    M_ima := fun _ => true
    E_ima := fun _ => false
    N_ima := fun _ => false
    staff := 9
    dayUsed := fun _ => true }

/-- A Coating solution running every process every morning. -/
def morningCoatAssign : CoatAssign :=
  { M_solution := fun _ => true
    E_solution := fun _ => false
    N_solution := fun _ => false
    M_bosch := fun _ => true
    E_bosch := fun _ => false
    N_bosch := fun _ => false
    M_glatt := fun _ => true
    E_glatt := fun _ => false
    N_glatt := fun _ => false
    staff := 6
    dayUsed := fun _ => true }

/-!  Model-level feasibility: existence of an assignment satisfying the
constraint system a stage hands to the solver (including that the
capacity pre-checks cannot reject such an instance, since the demand
constraint already bounds demand by capacity).  -/

/-- Feasibility of the Dispensing constraint system. -/
def dispFeasibleModel (B D : Nat) : Prop :=
  ∃ a : ShiftAssign, dispConstraints B D a

/-- Feasibility of the Granulation constraint system. -/
def granFeasibleModel (B D : Nat) : Prop :=
  ∃ a : ShiftAssign, granConstraints B D a

/-- Feasibility of the Tableting constraint system. -/
def tabFeasibleModel (B D : Nat) (up uq ui : Bool) : Prop :=
  ∃ a : TabAssign, tabConstraints B D up uq ui a

/-- Feasibility of the Coating constraint system. -/
def coatFeasibleModel (B D : Nat) (ub ug : Bool) : Prop :=
  ∃ a : CoatAssign, coatConstraints B D ub ug a

/-- Simultaneous model-level feasibility of the four stage systems the
aggregator solves when one batch count is applied to every stage. -/
def osdModelFeasible (B D : Nat) (up uq ui ub ug : Bool) : Prop :=
  dispFeasibleModel B D ∧ granFeasibleModel B D ∧
    tabFeasibleModel B D up uq ui ∧ coatFeasibleModel B D ub ug

/-- Spec-side formula for the Coating capacity pre-check, following the
claim wording: sum of enabled resource yields per shift (Solution at 4,
each enabled machine at 2) times 3 shifts.  Declared for comparison
with the source pre-check, which instead tests the Solution and
coating capacities separately. -/
def spec_max_daily_output_coating (ub ug : Bool) : Nat :=
  (4 + (if ub then 2 else 0) + (if ug then 2 else 0)) * 3

/-!  Helper lemmas.  -/

/-- The Dispensing solve returns none for every input and every solver
outcome: the integer status returned by model.solve never equals the
string Optimal. -/
theorem optimize_dispensing_eq_none (B D : Nat) (buf : ℚ) (w : Weights)
    (o : SolveOutcome ShiftAssign) :
    optimize_dispensing B D buf w o = none := by
  unfold optimize_dispensing
  by_cases h : 9 * D < B
  · simp [h]
  · simp [h, pyNe]

/-- The aggregator returns none for every input: it starts with the
Dispensing solve and short-circuits on its failure. -/
theorem optimize_osd_schedule_eq_none (dB gB tB cB D : Nat)
    (up uq ui ub ug : Bool) (buf : ℚ) (w : Weights) (o : OsdOracles) :
    optimize_osd_schedule dB gB tB cB D up uq ui ub ug buf w o = none := by
  unfold optimize_osd_schedule
  rw [optimize_dispensing_eq_none]
  rfl

/-- Unfolding equation of the horizon-stepping loop in the pending state. -/
theorem searchDays_none_step (probe : Nat → Option CombinedResult) (cd : Nat) :
    searchDays probe cd none =
      if cd ≤ 365 then searchDays probe (cd + 7) (probe (cd + 7))
      else (none, cd) := by
  rw [searchDays]

/-- Unfolding equation of the horizon-stepping loop in the solved state. -/
theorem searchDays_some_step (probe : Nat → Option CombinedResult) (cd : Nat)
    (r : CombinedResult) :
    searchDays probe cd (some r) = (some r, cd) := by
  rw [searchDays]

/-- If every probe fails, the horizon-stepping loop ends with none. -/
theorem searchDays_fst_none (probe : Nat → Option CombinedResult)
    (h : ∀ d, probe d = none) (cd : Nat) :
    (searchDays probe cd none).1 = none := by
  have key : ∀ n cd, 366 - cd ≤ n → (searchDays probe cd none).1 = none := by
    intro n
    induction n with
    | zero =>
      intro cd hle
      rw [searchDays_none_step]
      have hgt : ¬ cd ≤ 365 := by omega
      simp [hgt]
    | succ n ih =>
      intro cd hle
      rw [searchDays_none_step]
      by_cases hc : cd ≤ 365
      · rw [if_pos hc, h (cd + 7)]
        exact ih (cd + 7) (by omega)
      · simp [hc]
  exact key (366 - cd) cd le_rfl

/-- If every probe fails, the binary-search loop returns its initial
record, here none. -/
theorem maxBatchesLoop_all_none (probe : Nat → Option CombinedResult)
    (h : ∀ x, probe x = none) :
    ∀ fuel lo hi, maxBatchesLoop probe fuel lo hi none = none := by
  intro fuel
  induction fuel with
  | zero => intro lo hi; rfl
  | succ n ih =>
    intro lo hi
    rw [maxBatchesLoop]
    by_cases hlh : lo ≤ hi
    · rw [if_pos hlh]
      simp only [h ((lo + hi) / 2)]
      exact ih lo ((lo + hi) / 2 - 1)
    · rw [if_neg hlh]

/-- The pulp status string is Optimal exactly for status code 1. -/
theorem LpStatus_eq_optimal_iff (c : Int) : LpStatus c = "Optimal" ↔ c = 1 := by
  constructor
  · intro h
    by_contra h1
    unfold LpStatus at h
    rw [if_neg h1] at h
    split_ifs at h <;> exact absurd h (by decide)
  · intro h
    subst h
    rfl

/-- Rearrangement between a demand constraint written as a summed shift
count times the yield and the extraction that sums each shift type
separately. -/
theorem sum_shifts_mul_three (D : Nat) (f g h : Nat → Bool) :
    (∑ d in Finset.range D, ((f d).toNat + (g d).toNat + (h d).toNat)) * 3 =
      3 * (countTrue f D + countTrue g D + countTrue h D) := by
  unfold countTrue
  rw [Finset.sum_add_distrib, Finset.sum_add_distrib]
  ring

/-- Extraction facts of a successful Granulation solve. -/
theorem optimize_granulation_some (B D : Nat) (buf : ℚ) (w : Weights)
    (o : SolveOutcome ShiftAssign) (r : GranResult)
    (hr : optimize_granulation B D buf w o = some r) :
    o.status = 1 ∧
    r.total_batches_produced =
      3 * (countTrue o.assign.M D + countTrue o.assign.E D +
        countTrue o.assign.N D) ∧
    r.min_staff_required = o.assign.staff ∧
    r.days_used = countTrue o.assign.dayUsed D := by
  unfold optimize_granulation at hr
  by_cases h9 : 9 * D < B
  · simp [h9] at hr
  · rw [if_neg h9] at hr
    by_cases hs : LpStatus o.status = "Optimal"
    · rw [if_neg (by simp [hs])] at hr
      have hrec := Option.some.inj hr
      refine ⟨(LpStatus_eq_optimal_iff _).mp hs, ?_, ?_, ?_⟩ <;>
        rw [← hrec]
    · rw [if_pos (by simp [hs])] at hr
      exact absurd hr (by simp)

/-- Extraction facts of a successful Tableting solve. -/
theorem optimize_tableting_some (B D : Nat) (up uq ui : Bool) (buf : ℚ)
    (w : Weights) (o : SolveOutcome TabAssign) (r : TabResult)
    (hr : optimize_tableting B D up uq ui buf w o = some r) :
    o.status = 1 ∧
    r.total_batches_produced = tabDemandLHS D up uq ui o.assign ∧
    r.min_staff_required = o.assign.staff ∧
    r.days_used = countTrue o.assign.dayUsed D := by
  unfold optimize_tableting at hr
  by_cases hz : tab_max_daily_batches up uq ui = 0
  · simp [hz] at hr
  · rw [if_neg hz] at hr
    by_cases hcap : tab_max_daily_batches up uq ui * D < B
    · simp [hcap] at hr
    · rw [if_neg hcap] at hr
      by_cases hs : LpStatus o.status = "Optimal"
      · rw [if_neg (by simp [hs])] at hr
        have hrec := Option.some.inj hr
        refine ⟨(LpStatus_eq_optimal_iff _).mp hs, ?_, ?_, ?_⟩ <;>
          rw [← hrec]
      · rw [if_pos (by simp [hs])] at hr
        exact absurd hr (by simp)

/-- Extraction facts of a successful Coating solve. -/
theorem optimize_coating_some (B D : Nat) (ub ug : Bool) (buf : ℚ)
    (w : Weights) (o : SolveOutcome CoatAssign) (r : CoatResult)
    (hr : optimize_coating B D ub ug buf w o = some r) :
    o.status = 1 ∧
    r.total_solution_produced = coatSolutionLHS D o.assign ∧
    r.total_coating_produced = coatCoatingLHS D ub ug o.assign ∧
    r.final_batches_count =
      min r.total_solution_produced r.total_coating_produced ∧
    r.min_staff_required = o.assign.staff ∧
    r.days_used = countTrue o.assign.dayUsed D := by
  unfold optimize_coating at hr
  by_cases hm : coating_machines_used ub ug = 0
  · simp [hm] at hr
  · rw [if_neg hm] at hr
    by_cases hsol : 12 * D < B
    · simp [hsol] at hr
    · rw [if_neg hsol] at hr
      by_cases hcoat : coat_max_daily_coating ub ug * D < B
      · simp [hcoat] at hr
      · rw [if_neg hcoat] at hr
        by_cases hs : LpStatus o.status = "Optimal"
        · rw [if_neg (by simp [hs])] at hr
          have hrec := Option.some.inj hr
          refine ⟨(LpStatus_eq_optimal_iff _).mp hs, ?_, ?_, ?_, ?_, ?_⟩ <;>
            rw [← hrec]
        · rw [if_pos (by simp [hs])] at hr
          exact absurd hr (by simp)

/-!  Claim theorems.  -/

/-- C1: the Dispensing solve stores the integer status code returned by
model.solve and compares it against the string Optimal, which is never
true, so every Dispensing solve that passes (or fails) the capacity
pre-check returns none; consequently the aggregator, the horizon
search and the throughput search return none for every input. -/
theorem C1_status_bug_all_none :
    (∀ (B D : Nat) (buf : ℚ) (w : Weights) (o : SolveOutcome ShiftAssign),
      optimize_dispensing B D buf w o = none) ∧
    (∀ (dB gB tB cB D : Nat) (up uq ui ub ug : Bool) (buf : ℚ) (w : Weights)
      (o : OsdOracles),
      optimize_osd_schedule dB gB tB cB D up uq ui ub ug buf w o = none) ∧
    (∀ (B init : Nat) (up uq ui ub ug : Bool) (buf : ℚ) (w : Weights)
      (oracles : Nat → OsdOracles),
      optimize_osd_schedule_with_total B init up uq ui ub ug buf w oracles =
        none) ∧
    (∀ (D mi : Nat) (up uq ui ub ug : Bool) (buf : ℚ) (w : Weights)
      (oracles : Nat → OsdOracles),
      optimize_max_batches D mi (maxBatchesProbe D up uq ui ub ug buf w oracles) =
        none) := by
  refine ⟨optimize_dispensing_eq_none, optimize_osd_schedule_eq_none, ?_, ?_⟩
  · intro B init up uq ui ub ug buf w oracles
    have hp : ∀ d,
        osdTotalProbe B up uq ui ub ug buf w oracles d = none := by
      intro d
      unfold osdTotalProbe
      exact optimize_osd_schedule_eq_none ..
    unfold optimize_osd_schedule_with_total
    rcases hsd : searchDays
        (osdTotalProbe B up uq ui ub ug buf w oracles) init
        (osdTotalProbe B up uq ui ub ug buf w oracles init) with ⟨res, cds⟩
    have hres : res = none := by
      have h1 : (searchDays (osdTotalProbe B up uq ui ub ug buf w oracles) init
          (osdTotalProbe B up uq ui ub ug buf w oracles init)).1 = none := by
        rw [hp init]
        exact searchDays_fst_none _ hp init
      rw [hsd] at h1
      exact h1
    subst hres
    simp [hsd]
  · intro D mi up uq ui ub ug buf w oracles
    have hp : ∀ x,
        maxBatchesProbe D up uq ui ub ug buf w oracles x = none := by
      intro x
      unfold maxBatchesProbe
      exact optimize_osd_schedule_eq_none ..
    unfold optimize_max_batches
    rw [maxBatchesLoop_all_none _ hp]

/-- C2: with batches_required 0 the capacity pre-check cannot fire and
the all-zero solution is optimal; Granulation, Tableting and Coating
duly return a result with zero staffing, zero days and zero
activations, but Dispensing still returns none even when the solver
reports status 1 (Optimal) with the all-zero solution, because of the
status comparison bug. -/
theorem C2_zero_demand_dispensing_diverges :
    dispConstraints 0 1 zeroShiftAssign ∧
    disp_solver_invoked 0 1 = true ∧
    optimize_dispensing 0 1 0 defaultWeights ⟨1, zeroShiftAssign⟩ = none ∧
    optimize_granulation 0 1 0 defaultWeights ⟨1, zeroShiftAssign⟩ =
      some
        { morning_shifts := 0
          evening_shifts := 0
          night_shifts := 0
          total_batches_produced := 0
          pct_demand_completed := 0
          min_staff_required := 0
          staff_with_buffer := 0
          days_used := 0
          num_workdays_horizon := 1
          solver_status := "Optimal" } ∧
    optimize_tableting 0 1 true true true 0 defaultWeights ⟨1, zeroTabAssign⟩ =
      some
        { morning_shifts := ⟨0, 0, 0⟩
          evening_shifts := ⟨0, 0, 0⟩
          night_shifts := ⟨0, 0, 0⟩
          total_batches_produced := 0
          pct_demand_completed := 0
          min_staff_required := 0
          staff_with_buffer := 0
          days_used := 0
          num_workdays_horizon := 1
          solver_status := "Optimal" } ∧
    optimize_coating 0 1 true true 0 defaultWeights ⟨1, zeroCoatAssign⟩ =
      some
        { morning_shifts := ⟨0, 0, 0⟩
          evening_shifts := ⟨0, 0, 0⟩
          night_shifts := ⟨0, 0, 0⟩
          total_solution_produced := 0
          total_coating_produced := 0
          final_batches_count := 0
          pct_demand_completed := 0
          min_staff_required := 0
          staff_with_buffer := 0
          days_used := 0
          num_workdays_horizon := 1
          solver_status := "Optimal" } := by
  refine ⟨by decide, by decide,
    optimize_dispensing_eq_none 0 1 0 defaultWeights ⟨1, zeroShiftAssign⟩,
    ?_, ?_, ?_⟩
  · simp [optimize_granulation, LpStatus, countTrue, zeroShiftAssign]
  · simp [optimize_tableting, tab_max_daily_batches, tab_machine_output,
      LpStatus, tabDemandLHS, gate, gatedShiftSum, countTrue, zeroTabAssign]
  · simp [optimize_coating, coating_machines_used, coat_max_daily_coating,
      LpStatus, coatSolutionLHS, coatCoatingLHS, gate, gatedShiftSum,
      countTrue, zeroCoatAssign]

/-- C3: whenever a stage solve returns a result (solver status optimal)
and the solver honoured the model constraints, the reported total
production meets the demand and equals the demand constraint value
recomputed from the returned activations; for Coating both totals meet
the demand and the final count is their minimum.  Dispensing never
returns a result at all, so the claim is settled by the three stages
that can. -/
theorem C3_optimal_results_meet_demand :
    ∀ (B D : Nat) (buf : ℚ) (w : Weights) (up uq ui ub ug : Bool)
      (og : SolveOutcome ShiftAssign) (ot : SolveOutcome TabAssign)
      (oc : SolveOutcome CoatAssign),
      (og.status = 1 → granConstraints B D og.assign) →
      (ot.status = 1 → tabConstraints B D up uq ui ot.assign) →
      (oc.status = 1 → coatConstraints B D ub ug oc.assign) →
      (∀ r, optimize_granulation B D buf w og = some r →
        B ≤ r.total_batches_produced ∧
        r.total_batches_produced = granDemandLHS D og.assign) ∧
      (∀ r, optimize_tableting B D up uq ui buf w ot = some r →
        B ≤ r.total_batches_produced ∧
        r.total_batches_produced = tabDemandLHS D up uq ui ot.assign) ∧
      (∀ r, optimize_coating B D ub ug buf w oc = some r →
        B ≤ r.total_solution_produced ∧
        B ≤ r.total_coating_produced ∧
        r.total_solution_produced = coatSolutionLHS D oc.assign ∧
        r.total_coating_produced = coatCoatingLHS D ub ug oc.assign ∧
        r.final_batches_count =
          min r.total_solution_produced r.total_coating_produced) := by
  intro B D buf w up uq ui ub ug og ot oc hg ht hc
  refine ⟨?_, ?_, ?_⟩
  · intro r hr
    obtain ⟨h1, htot, _, _⟩ := optimize_granulation_some B D buf w og r hr
    obtain ⟨hdem, _, _⟩ := hg h1
    have heq : r.total_batches_produced = granDemandLHS D og.assign := by
      rw [htot]
      unfold granDemandLHS
      rw [sum_shifts_mul_three]
    refine ⟨?_, heq⟩
    rw [heq]
    exact hdem
  · intro r hr
    obtain ⟨h1, htot, _, _⟩ := optimize_tableting_some B D up uq ui buf w ot r hr
    obtain ⟨hdem, _, _⟩ := ht h1
    refine ⟨?_, htot⟩
    rw [htot]
    exact hdem
  · intro r hr
    obtain ⟨h1, hsol, hcoa, hmin, _, _⟩ :=
      optimize_coating_some B D ub ug buf w oc r hr
    obtain ⟨hd1, hd2, _, _⟩ := hc h1
    refine ⟨?_, ?_, hsol, hcoa, hmin⟩
    · rw [hsol]; exact hd1
    · rw [hcoa]; exact hd2

/-- Concrete Granulation result for a one-day all-morning solve at
demand 3. -/
def granRes0 : GranResult :=
  { morning_shifts := 1
    evening_shifts := 0
    night_shifts := 0
    total_batches_produced := 3
    pct_demand_completed := 100
    min_staff_required := 6
    staff_with_buffer := 6
    days_used := 1
    num_workdays_horizon := 1
    solver_status := "Optimal" }

/-- Concrete Tableting result for a one-day all-morning solve at
demand 3 with all machines enabled. -/
def tabRes0 : TabResult :=
  { morning_shifts := ⟨1, 1, 1⟩
    evening_shifts := ⟨0, 0, 0⟩
    night_shifts := ⟨0, 0, 0⟩
    total_batches_produced := 4
    pct_demand_completed := 400 / 3
    min_staff_required := 9
    staff_with_buffer := 9
    days_used := 1
    num_workdays_horizon := 1
    solver_status := "Optimal" }

/-- Concrete Coating result for a one-day all-morning solve at demand 3
with both machines enabled. -/
def coatRes0 : CoatResult :=
  { morning_shifts := ⟨1, 1, 1⟩
    evening_shifts := ⟨0, 0, 0⟩
    night_shifts := ⟨0, 0, 0⟩
    total_solution_produced := 4
    total_coating_produced := 4
    final_batches_count := 4
    pct_demand_completed := 400 / 3
    min_staff_required := 6
    staff_with_buffer := 6
    days_used := 1
    num_workdays_horizon := 1
    solver_status := "Optimal" }

/-- Evaluation of the Granulation solve on the concrete morning-shift
solver outcome. -/
theorem granRes0_eq :
    optimize_granulation 3 1 0 defaultWeights ⟨1, morningShiftAssign⟩ =
      some granRes0 := by
  simp [optimize_granulation, LpStatus, countTrue, morningShiftAssign, granRes0]

/-- Evaluation of the Tableting solve on the concrete morning-shift
solver outcome. -/
theorem tabRes0_eq :
    optimize_tableting 3 1 true true true 0 defaultWeights
      ⟨1, morningTabAssign⟩ = some tabRes0 := by
  simp [optimize_tableting, tab_max_daily_batches, tab_machine_output,
    LpStatus, tabDemandLHS, gate, gatedShiftSum, countTrue, morningTabAssign,
    tabRes0]
  all_goals norm_num

/-- Evaluation of the Coating solve on the concrete morning-shift solver
outcome. -/
theorem coatRes0_eq :
    optimize_coating 3 1 true true 0 defaultWeights ⟨1, morningCoatAssign⟩ =
      some coatRes0 := by
  simp [optimize_coating, coating_machines_used, coat_max_daily_coating,
    LpStatus, coatSolutionLHS, coatCoatingLHS, gate, gatedShiftSum,
    countTrue, morningCoatAssign, coatRes0]
  all_goals norm_num

/-- Witness for C3: the solver-contract hypotheses hold at a concrete
feasible outcome for each stage and the instantiated conclusions
follow from the claim theorem. -/
theorem C3_optimal_results_meet_demand_witness :
    granConstraints 3 1 morningShiftAssign ∧
    tabConstraints 3 1 true true true morningTabAssign ∧
    coatConstraints 3 1 true true morningCoatAssign ∧
    (3 ≤ granRes0.total_batches_produced ∧
      granRes0.total_batches_produced = granDemandLHS 1 morningShiftAssign) ∧
    (3 ≤ tabRes0.total_batches_produced ∧
      tabRes0.total_batches_produced =
        tabDemandLHS 1 true true true morningTabAssign) ∧
    (3 ≤ coatRes0.total_solution_produced ∧
      3 ≤ coatRes0.total_coating_produced ∧
      coatRes0.total_solution_produced = coatSolutionLHS 1 morningCoatAssign ∧
      coatRes0.total_coating_produced =
        coatCoatingLHS 1 true true morningCoatAssign ∧
      coatRes0.final_batches_count =
        min coatRes0.total_solution_produced coatRes0.total_coating_produced) := by
  have hmain := C3_optimal_results_meet_demand 3 1 0 defaultWeights
    true true true true true ⟨1, morningShiftAssign⟩ ⟨1, morningTabAssign⟩
    ⟨1, morningCoatAssign⟩ (fun _ => by norm_num [granConstraints,
      granDemandLHS, morningShiftAssign])
    (fun _ => by norm_num [tabConstraints, tabDemandLHS, tabDayShifts, gate,
      morningTabAssign])
    (fun _ => by norm_num [coatConstraints, coatSolutionLHS, coatCoatingLHS,
      coatDayStaff, coatDayShifts, gate, morningCoatAssign])
  refine ⟨?_, ?_, ?_, hmain.1 granRes0 granRes0_eq,
    hmain.2.1 tabRes0 tabRes0_eq, hmain.2.2 coatRes0 coatRes0_eq⟩
  · norm_num [granConstraints, granDemandLHS, morningShiftAssign]
  · norm_num [tabConstraints, tabDemandLHS, tabDayShifts, gate,
      morningTabAssign]
  · norm_num [coatConstraints, coatSolutionLHS, coatCoatingLHS, coatDayStaff,
      coatDayShifts, gate, morningCoatAssign]

/-- If demand exceeds capacity times horizon, the ceiling of demand over
capacity strictly exceeds the horizon, so the additional-days
diagnostic is positive. -/
theorem ceil_div_gt (B M D : Nat) (hM : 0 < M) (h : M * D < B) :
    (D : Int) < ⌈(B : ℚ) / (M : ℚ)⌉ := by
  rw [Int.lt_ceil]
  have hM' : (0 : ℚ) < (M : ℚ) := by exact_mod_cast hM
  rw [lt_div_iff₀ hM']
  have hDM : (D * M : Nat) < B := by rwa [Nat.mul_comm] at h
  push_cast
  exact_mod_cast hDM

/-- C4 counterexample: at demand 7, horizon 1 day, BOSCH only, the
single summed-capacity formula of the claim ((4 + 2) * 3 = 18 per day)
does not flag infeasibility, yet the Coating pre-check rejects without
invoking the solver because the coating-machine capacity alone
(6 per day) is insufficient. -/
theorem C4_coating_single_formula_counterexample :
    ¬ (spec_max_daily_output_coating true false * 1 < 7) ∧
    optimize_coating 7 1 true false 0 defaultWeights ⟨1, zeroCoatAssign⟩ =
      none ∧
    coat_solver_invoked 7 1 true false = false := by
  refine ⟨by decide, by decide, by decide⟩

/-- C4 amended: for Dispensing, Granulation and Tableting the capacity
pre-check behaves exactly as claimed (single summed capacity times 3
shifts, immediate none without a solver call, additional-days
diagnostic equal to the ceiling formula and positive); Coating instead
tests the Solution capacity (12 per day) and the coating-machine
capacity (6 per enabled machine per day) separately, rejecting when
either is insufficient, with a needed-days diagnostic per failing
capacity; when no capacity test fires the pre-check does not reject. -/
theorem C4_precheck_amended :
    ∀ (B D : Nat) (up uq ui ub ug : Bool) (buf : ℚ) (w : Weights)
      (od og : SolveOutcome ShiftAssign) (ot : SolveOutcome TabAssign)
      (oc : SolveOutcome CoatAssign),
      (9 * D < B →
        optimize_dispensing B D buf w od = none ∧
        disp_solver_invoked B D = false ∧
        disp_precheck_more_days B D = ⌈(B : ℚ) / 9⌉ - D ∧
        1 ≤ disp_precheck_more_days B D) ∧
      (¬ 9 * D < B → disp_solver_invoked B D = true) ∧
      (9 * D < B →
        optimize_granulation B D buf w og = none ∧
        gran_solver_invoked B D = false ∧
        gran_precheck_more_days B D = ⌈(B : ℚ) / 9⌉ - D ∧
        1 ≤ gran_precheck_more_days B D) ∧
      (¬ 9 * D < B → gran_solver_invoked B D = true) ∧
      (tab_max_daily_batches up uq ui ≠ 0 →
        tab_max_daily_batches up uq ui * D < B →
        optimize_tableting B D up uq ui buf w ot = none ∧
        tab_solver_invoked B D up uq ui = false ∧
        tab_precheck_more_days B D up uq ui =
          ⌈(B : ℚ) / (tab_max_daily_batches up uq ui : ℚ)⌉ - D ∧
        1 ≤ tab_precheck_more_days B D up uq ui) ∧
      (tab_max_daily_batches up uq ui ≠ 0 →
        ¬ tab_max_daily_batches up uq ui * D < B →
        tab_solver_invoked B D up uq ui = true) ∧
      (coating_machines_used ub ug ≠ 0 →
        (12 * D < B ∨ coat_max_daily_coating ub ug * D < B) →
        optimize_coating B D ub ug buf w oc = none ∧
        coat_solver_invoked B D ub ug = false) ∧
      (12 * D < B → (D : Int) < coat_precheck_needed_days_solution B) ∧
      (coating_machines_used ub ug ≠ 0 →
        coat_max_daily_coating ub ug * D < B →
        (D : Int) < coat_precheck_needed_days_coating B ub ug) ∧
      (coating_machines_used ub ug ≠ 0 → ¬ 12 * D < B →
        ¬ coat_max_daily_coating ub ug * D < B →
        coat_solver_invoked B D ub ug = true) := by
  intro B D up uq ui ub ug buf w od og ot oc
  refine ⟨?_, ?_, ?_, ?_, ?_, ?_, ?_, ?_, ?_, ?_⟩
  · intro h
    refine ⟨optimize_dispensing_eq_none .., ?_, ?_, ?_⟩
    · simp [disp_solver_invoked, h]
    · have h9 : ((9 : Nat) : ℚ) = (9 : ℚ) := by norm_num
      simp [disp_precheck_more_days, disp_precheck_needed_days]
    · have := ceil_div_gt B 9 D (by norm_num) h
      have h9 : ((9 : Nat) : ℚ) = (9 : ℚ) := by norm_num
      rw [h9] at this
      simp only [disp_precheck_more_days, disp_precheck_needed_days]
      omega
  · intro h
    simp [disp_solver_invoked, h]
  · intro h
    refine ⟨?_, ?_, ?_, ?_⟩
    · simp [optimize_granulation, h]
    · simp [gran_solver_invoked, h]
    · simp [gran_precheck_more_days, gran_precheck_needed_days]
    · have := ceil_div_gt B 9 D (by norm_num) h
      have h9 : ((9 : Nat) : ℚ) = (9 : ℚ) := by norm_num
      rw [h9] at this
      simp only [gran_precheck_more_days, gran_precheck_needed_days]
      omega
  · intro h
    simp [gran_solver_invoked, h]
  · intro hz h
    refine ⟨?_, ?_, ?_, ?_⟩
    · simp [optimize_tableting, hz, h]
    · simp [tab_solver_invoked, hz, h]
    · simp [tab_precheck_more_days, tab_precheck_needed_days]
    · have := ceil_div_gt B (tab_max_daily_batches up uq ui) D
        (Nat.pos_of_ne_zero hz) h
      simp only [tab_precheck_more_days, tab_precheck_needed_days]
      omega
  · intro hz h
    simp [tab_solver_invoked, hz, h]
  · intro hm h
    constructor
    · by_cases hsol : 12 * D < B
      · simp [optimize_coating, hm, hsol]
      · rcases h with h | h
        · exact absurd h hsol
        · simp [optimize_coating, hm, hsol, h]
    · rcases h with h | h
      · simp [coat_solver_invoked, h]
      · simp [coat_solver_invoked, h]
  · intro h
    have := ceil_div_gt B 12 D (by norm_num) h
    have h12 : ((12 : Nat) : ℚ) = (12 : ℚ) := by norm_num
    rw [h12] at this
    simpa [coat_precheck_needed_days_solution] using this
  · intro hm h
    have := ceil_div_gt B (coat_max_daily_coating ub ug) D
      (by simp [coat_max_daily_coating]; omega) h
    simpa [coat_precheck_needed_days_coating] using this
  · intro hm h1 h2
    simp [coat_solver_invoked, hm, h1, h2]

/-- Witness for C4: the amended pre-check facts instantiated at concrete
rejecting and non-rejecting inputs for each stage. -/
theorem C4_precheck_amended_witness :
    optimize_dispensing 19 2 0 defaultWeights ⟨1, zeroShiftAssign⟩ = none ∧
    disp_solver_invoked 19 2 = false ∧
    1 ≤ disp_precheck_more_days 19 2 ∧
    disp_solver_invoked 9 1 = true ∧
    optimize_granulation 19 2 0 defaultWeights ⟨1, zeroShiftAssign⟩ = none ∧
    gran_solver_invoked 19 2 = false ∧
    optimize_tableting 7 2 true false false 0 defaultWeights
      ⟨1, zeroTabAssign⟩ = none ∧
    tab_solver_invoked 7 2 true false false = false ∧
    1 ≤ tab_precheck_more_days 7 2 true false false ∧
    optimize_coating 13 2 true false 0 defaultWeights ⟨1, zeroCoatAssign⟩ =
      none ∧
    coat_solver_invoked 13 2 true false = false ∧
    (2 : Int) < coat_precheck_needed_days_coating 13 true false ∧
    coat_solver_invoked 4 1 true false = true := by
  have hd := C4_precheck_amended 19 2 true true true true true 0
    defaultWeights ⟨1, zeroShiftAssign⟩ ⟨1, zeroShiftAssign⟩
    ⟨1, zeroTabAssign⟩ ⟨1, zeroCoatAssign⟩
  have hdpass := C4_precheck_amended 9 1 true true true true true 0
    defaultWeights ⟨1, zeroShiftAssign⟩ ⟨1, zeroShiftAssign⟩
    ⟨1, zeroTabAssign⟩ ⟨1, zeroCoatAssign⟩
  have htab := C4_precheck_amended 7 2 true false false true true 0
    defaultWeights ⟨1, zeroShiftAssign⟩ ⟨1, zeroShiftAssign⟩
    ⟨1, zeroTabAssign⟩ ⟨1, zeroCoatAssign⟩
  have hcoat := C4_precheck_amended 13 2 true true true true false 0
    defaultWeights ⟨1, zeroShiftAssign⟩ ⟨1, zeroShiftAssign⟩
    ⟨1, zeroTabAssign⟩ ⟨1, zeroCoatAssign⟩
  have hcpass := C4_precheck_amended 4 1 true true true true false 0
    defaultWeights ⟨1, zeroShiftAssign⟩ ⟨1, zeroShiftAssign⟩
    ⟨1, zeroTabAssign⟩ ⟨1, zeroCoatAssign⟩
  obtain ⟨d1, d2, _, d4⟩ := hd.1 (by omega)
  obtain ⟨g1, g2, _, _⟩ := hd.2.2.1 (by omega)
  obtain ⟨t1, t2, _, t4⟩ := htab.2.2.2.2.1 (by decide) (by decide)
  obtain ⟨c1, c2⟩ := hcoat.2.2.2.2.2.2.1 (by decide) (Or.inr (by decide))
  have c3 := hcoat.2.2.2.2.2.2.2.2.1 (by decide) (by decide)
  exact ⟨d1, d2, d4, hdpass.2.1 (by omega), g1, g2, t1, t2, t4, c1, c2, c3,
    hcpass.2.2.2.2.2.2.2.2.2 (by decide) (by decide) (by decide)⟩

/-- C5: the aggregator runs the four stage solves in the fixed order
Dispensing, Granulation, Tableting, Coating with the shared horizon,
buffer ratio and weights; it is none exactly when some stage result is
none, never invokes a stage after the first failure and never returns
a partial result; on full success it combines the four stage results
with the two staffing sums. -/
theorem C5_aggregator_contract :
    (∀ (dB gB tB cB D : Nat) (up uq ui ub ug : Bool) (buf : ℚ) (w : Weights)
      (o : OsdOracles),
      optimize_osd_schedule dB gB tB cB D up uq ui ub ug buf w o =
        osdSequence
          (optimize_dispensing dB D buf w o.disp)
          (optimize_granulation gB D buf w o.gran)
          (optimize_tableting tB D up uq ui buf w o.tab)
          (optimize_coating cB D ub ug buf w o.coat)) ∧
    (∀ (d : Option DispResult) (g : Option GranResult) (t : Option TabResult)
      (c : Option CoatResult),
      (osdSequence d g t c = none ↔
        d = none ∨ g = none ∨ t = none ∨ c = none)) ∧
    (∀ (g : Option GranResult) (t : Option TabResult),
      osdInvoked none g t = [.dispensing]) ∧
    (∀ (dr : DispResult) (t : Option TabResult),
      osdInvoked (some dr) none t = [.dispensing, .granulation]) ∧
    (∀ (dr : DispResult) (gr : GranResult),
      osdInvoked (some dr) (some gr) none =
        [.dispensing, .granulation, .tableting]) ∧
    (∀ (dr : DispResult) (gr : GranResult) (tr : TabResult),
      osdInvoked (some dr) (some gr) (some tr) =
        [.dispensing, .granulation, .tableting, .coating]) ∧
    (∀ (dr : DispResult) (gr : GranResult) (tr : TabResult) (cr : CoatResult),
      osdSequence (some dr) (some gr) (some tr) (some cr) =
        some (osdCombine dr gr tr cr) ∧
      (osdCombine dr gr tr cr).dispensing = dr ∧
      (osdCombine dr gr tr cr).granulation = gr ∧
      (osdCombine dr gr tr cr).tableting = tr ∧
      (osdCombine dr gr tr cr).coating = cr ∧
      (osdCombine dr gr tr cr).total_min_staff_summed =
        dr.min_staff_required + gr.min_staff_required +
          tr.min_staff_required + cr.min_staff_required ∧
      (osdCombine dr gr tr cr).total_staff_with_buffer_summed =
        dr.staff_with_buffer + gr.staff_with_buffer +
          tr.staff_with_buffer + cr.staff_with_buffer) := by
  refine ⟨fun _ _ _ _ _ _ _ _ _ _ _ _ _ => rfl,
    ?_, fun _ _ => rfl, fun _ _ => rfl, fun _ _ => rfl, fun _ _ _ => rfl,
    fun _ _ _ _ => ⟨rfl, rfl, rfl, rfl, rfl, rfl, rfl⟩⟩
  intro d g t c
  cases d <;> cases g <;> cases t <;> cases c <;>
    simp [osdSequence]

/-- The binary-search loop makes at most fuel probes. -/
theorem maxBatchesProbed_length (probe : Nat → Option CombinedResult) :
    ∀ fuel lo hi, (maxBatchesProbed probe fuel lo hi).length ≤ fuel := by
  intro fuel
  induction fuel with
  | zero => intro lo hi; simp [maxBatchesProbed]
  | succ n ih =>
    intro lo hi
    rw [maxBatchesProbed]
    by_cases h : lo ≤ hi
    · rw [if_pos h]
      rcases hp : probe ((lo + hi) / 2) with _ | r
      · simp only [hp, List.length_cons]
        have := ih lo ((lo + hi) / 2 - 1)
        omega
      · simp only [hp, List.length_cons]
        have := ih ((lo + hi) / 2 + 1) hi
        omega
    · rw [if_neg h]
      simp

/-- Once a best candidate is recorded, the binary-search loop never
returns none. -/
theorem maxBatchesLoop_some_not_none (probe : Nat → Option CombinedResult) :
    ∀ fuel lo hi p, maxBatchesLoop probe fuel lo hi (some p) ≠ none := by
  intro fuel
  induction fuel with
  | zero => intro lo hi p; simp [maxBatchesLoop]
  | succ n ih =>
    intro lo hi p
    rw [maxBatchesLoop]
    by_cases h : lo ≤ hi
    · rw [if_pos h]
      rcases hp : probe ((lo + hi) / 2) with _ | r
      · simp only [hp]
        exact ih _ _ _
      · simp only [hp]
        exact ih _ _ _
    · rw [if_neg h]
      simp

/-- Invariant of the binary-search loop: a returned pair is either the
incoming best candidate with all subsequent probes failing, or a
successful probe within the current bounds that dominates every later
successful probe. -/
theorem maxBatchesLoop_some_spec (probe : Nat → Option CombinedResult) :
    ∀ fuel lo hi best r b,
      maxBatchesLoop probe fuel lo hi best = some (r, b) →
      (best = some (r, b) ∧
        ∀ x ∈ maxBatchesProbed probe fuel lo hi, probe x = none) ∨
      (probe b = some r ∧ lo ≤ b ∧ b ≤ hi ∧
        ∀ x ∈ maxBatchesProbed probe fuel lo hi, probe x ≠ none → x ≤ b) := by
  intro fuel
  induction fuel with
  | zero =>
    intro lo hi best r b h
    left
    exact ⟨h, by simp [maxBatchesProbed]⟩
  | succ n ih =>
    intro lo hi best r b h
    rw [maxBatchesLoop] at h
    by_cases hlh : lo ≤ hi
    · rw [if_pos hlh] at h
      have hmid_lo : lo ≤ (lo + hi) / 2 := by omega
      have hmid_hi : (lo + hi) / 2 ≤ hi := by omega
      rcases hp : probe ((lo + hi) / 2) with _ | r0
      · rw [hp] at h
        rcases ih lo ((lo + hi) / 2 - 1) best r b h with
          ⟨hb, hall⟩ | ⟨hpb, hlo, hhi, hmax⟩
        · left
          refine ⟨hb, ?_⟩
          intro x hx
          rw [maxBatchesProbed, if_pos hlh] at hx
          simp only [hp] at hx
          rcases List.mem_cons.mp hx with rfl | hx
          · exact hp
          · exact hall x hx
        · right
          refine ⟨hpb, hlo, by omega, ?_⟩
          intro x hx hxne
          rw [maxBatchesProbed, if_pos hlh] at hx
          simp only [hp] at hx
          rcases List.mem_cons.mp hx with rfl | hx
          · exact absurd hp hxne
          · exact hmax x hx hxne
      · rw [hp] at h
        rcases ih ((lo + hi) / 2 + 1) hi (some (r0, (lo + hi) / 2)) r b h with
          ⟨hb, hall⟩ | ⟨hpb, hlo, hhi, hmax⟩
        · have hr0 : r0 = r ∧ (lo + hi) / 2 = b := by
            have := Option.some.inj hb
            exact ⟨congrArg Prod.fst this, congrArg Prod.snd this⟩
          obtain ⟨hr0r, hr0b⟩ := hr0
          right
          refine ⟨?_, by omega, by omega, ?_⟩
          · rw [← hr0b, hp, hr0r]
          · intro x hx hxne
            rw [maxBatchesProbed, if_pos hlh] at hx
            simp only [hp] at hx
            rcases List.mem_cons.mp hx with rfl | hx
            · omega
            · exact absurd (hall x hx) hxne
        · right
          refine ⟨hpb, by omega, hhi, ?_⟩
          intro x hx hxne
          rw [maxBatchesProbed, if_pos hlh] at hx
          simp only [hp] at hx
          rcases List.mem_cons.mp hx with rfl | hx
          · omega
          · exact hmax x hx hxne
    · rw [if_neg hlh] at h
      left
      refine ⟨h, ?_⟩
      intro x hx
      rw [maxBatchesProbed, if_neg hlh] at hx
      simp at hx

/-- If the binary-search loop starting with no recorded candidate ends
with none, every probe it made failed. -/
theorem maxBatchesLoop_none_spec (probe : Nat → Option CombinedResult) :
    ∀ fuel lo hi,
      maxBatchesLoop probe fuel lo hi none = none →
      ∀ x ∈ maxBatchesProbed probe fuel lo hi, probe x = none := by
  intro fuel
  induction fuel with
  | zero =>
    intro lo hi _ x hx
    simp [maxBatchesProbed] at hx
  | succ n ih =>
    intro lo hi h x hx
    rw [maxBatchesLoop] at h
    rw [maxBatchesProbed] at hx
    by_cases hlh : lo ≤ hi
    · rw [if_pos hlh] at h hx
      rcases hp : probe ((lo + hi) / 2) with _ | r0
      · rw [hp] at h
        simp only [hp] at hx
        rcases List.mem_cons.mp hx with rfl | hx
        · exact hp
        · exact ih lo ((lo + hi) / 2 - 1) h x hx
      · rw [hp] at h
        exact absurd h (maxBatchesLoop_some_not_none probe _ _ _ _)
    · rw [if_neg hlh] at hx
      simp at hx

/-- C6: the throughput search is a bounded binary search on the interval
from 1 to num_workdays times 27: it makes at most max_iterations
aggregator probes (so it terminates regardless of monotonicity), a
feasible probe is recorded and raises the lower bound while an
infeasible probe lowers the upper bound, and the returned record, if
any, is the last recorded feasible probe (which dominates every
feasible probe made) with its batch count attached; none is returned
exactly when no probe succeeded. -/
theorem C6_throughput_search :
    ∀ (probe : Nat → Option CombinedResult) (D mi fuel lo hi : Nat)
      (best : Option (CombinedResult × Nat)) (r : CombinedResult),
      (optimize_max_batches D mi probe =
        match maxBatchesLoop probe mi 1 (D * 27) none with
        | none => none
        | some (r, b) => some { schedule := r, max_feasible_batches := b }) ∧
      ((maxBatchesProbed probe fuel lo hi).length ≤ fuel) ∧
      (lo ≤ hi → probe ((lo + hi) / 2) = some r →
        maxBatchesLoop probe (fuel + 1) lo hi best =
          maxBatchesLoop probe fuel ((lo + hi) / 2 + 1) hi
            (some (r, (lo + hi) / 2))) ∧
      (lo ≤ hi → probe ((lo + hi) / 2) = none →
        maxBatchesLoop probe (fuel + 1) lo hi best =
          maxBatchesLoop probe fuel lo ((lo + hi) / 2 - 1) best) ∧
      (∀ res, optimize_max_batches D mi probe = some res →
        probe res.max_feasible_batches = some res.schedule ∧
        1 ≤ res.max_feasible_batches ∧
        res.max_feasible_batches ≤ D * 27 ∧
        (∀ x ∈ maxBatchesProbed probe mi 1 (D * 27), probe x ≠ none →
          x ≤ res.max_feasible_batches)) ∧
      (optimize_max_batches D mi probe = none →
        ∀ x ∈ maxBatchesProbed probe mi 1 (D * 27), probe x = none) := by
  intro probe D mi fuel lo hi best r
  refine ⟨rfl, maxBatchesProbed_length probe fuel lo hi, ?_, ?_, ?_, ?_⟩
  · intro hlh hp
    rw [maxBatchesLoop, if_pos hlh]
    simp only [hp]
  · intro hlh hp
    rw [maxBatchesLoop, if_pos hlh]
    simp only [hp]
  · intro res hres
    unfold optimize_max_batches at hres
    rcases hloop : maxBatchesLoop probe mi 1 (D * 27) none with _ | rb
    · rw [hloop] at hres
      exact absurd hres (by simp)
    · rcases rb with ⟨r0, b0⟩
      rw [hloop] at hres
      have hres0 : res = { schedule := r0, max_feasible_batches := b0 } :=
        (Option.some.inj hres).symm
      subst hres0
      rcases maxBatchesLoop_some_spec probe mi 1 (D * 27) none r0 b0 hloop with
        ⟨habs, _⟩ | ⟨h1, h2, h3, h4⟩
      · exact absurd habs (by simp)
      · exact ⟨h1, h2, h3, h4⟩
  · intro hnone
    unfold optimize_max_batches at hnone
    rcases hloop : maxBatchesLoop probe mi 1 (D * 27) none with _ | rb
    · exact maxBatchesLoop_none_spec probe mi 1 (D * 27) hloop
    · rcases rb with ⟨r0, b0⟩
      rw [hloop] at hnone
      exact absurd hnone (by simp)

/-- Concrete Dispensing result record (reachable only through the dead
extraction path, used here as plain data for the search lemmas). -/
def dispRes0 : DispResult :=
  { morning_shifts := 0
    evening_shifts := 0
    night_shifts := 0
    total_batches_produced := 0
    pct_demand_completed := 0
    min_staff_required := 0
    staff_with_buffer := 0
    days_used := 5
    num_workdays_horizon := 1
    solver_status := PyVal.int 1 }

/-- Concrete combined result used to exercise the search loops. -/
def comb0 : CombinedResult :=
  osdCombine dispRes0 granRes0 tabRes0 coatRes0

/-- Concrete throughput-search probe: feasible up to batch count 14. -/
def throughputProbe0 : Nat → Option CombinedResult :=
  fun b => if b ≤ 14 then some comb0 else none

/-- Concrete throughput-search result at horizon 1 with one iteration. -/
def c6res : MaxBatchesResult :=
  { schedule := comb0
    max_feasible_batches := 14 }

/-- Witness for C6: the search facts instantiated on a concrete probe
with a concrete successful run. -/
theorem C6_throughput_search_witness :
    throughputProbe0 ((1 + 27) / 2) = some comb0 ∧
    maxBatchesLoop throughputProbe0 1 1 27 none =
      maxBatchesLoop throughputProbe0 0 15 27 (some (comb0, 14)) ∧
    throughputProbe0 c6res.max_feasible_batches = some c6res.schedule ∧
    1 ≤ c6res.max_feasible_batches ∧
    c6res.max_feasible_batches ≤ 1 * 27 := by
  have h := C6_throughput_search throughputProbe0 1 1 0 1 27 none comb0
  have heval : optimize_max_batches 1 1 throughputProbe0 = some c6res := by
    simp [optimize_max_batches, maxBatchesLoop, throughputProbe0, c6res]
  obtain ⟨h1, h2, h3, _⟩ := h.2.2.2.2.1 c6res heval
  refine ⟨by simp [throughputProbe0], ?_, h1, h2, h3⟩
  exact h.2.2.1 (by omega) (by simp [throughputProbe0])

/-- C7: the horizon search starts at the initial horizon, retries with
exactly 7 more days while the aggregator is infeasible and the current
horizon is at most 365, returns none when the loop ends without a
feasible result, and on success reports a completion-day estimate
equal to the maximum over the four pipeline positions k of the
Dispensing day count plus k. -/
theorem C7_horizon_search :
    ∀ (probe : Nat → Option CombinedResult) (cd : Nat) (r : CombinedResult)
      (B init : Nat) (up uq ui ub ug : Bool) (buf : ℚ) (w : Weights)
      (oracles : Nat → OsdOracles),
      (searchDays probe cd none =
        if cd ≤ 365 then searchDays probe (cd + 7) (probe (cd + 7))
        else (none, cd)) ∧
      (searchDays probe cd (some r) = (some r, cd)) ∧
      (optimize_osd_schedule_with_total B init up uq ui ub ug buf w oracles =
          none ↔
        (searchDays (osdTotalProbe B up uq ui ub ug buf w oracles) init
          (osdTotalProbe B up uq ui ub ug buf w oracles init)).1 = none) ∧
      (∀ t, optimize_osd_schedule_with_total B init up uq ui ub ug buf w
          oracles = some t →
        t.total_days_needed = totalDaysNeeded t.schedule) ∧
      (totalDaysNeeded r =
        Finset.sup (Finset.range 4) (fun k => r.dispensing.days_used + k)) := by
  intro probe cd r B init up uq ui ub ug buf w oracles
  refine ⟨searchDays_none_step probe cd, searchDays_some_step probe cd r,
    ?_, ?_, ?_⟩
  · rcases hsd : searchDays (osdTotalProbe B up uq ui ub ug buf w oracles) init
        (osdTotalProbe B up uq ui ub ug buf w oracles init) with ⟨res, cds⟩
    simp only [optimize_osd_schedule_with_total]
    rw [hsd]
    cases res <;> simp
  · intro t ht
    rcases hsd : searchDays (osdTotalProbe B up uq ui ub ug buf w oracles) init
        (osdTotalProbe B up uq ui ub ug buf w oracles init) with ⟨res, cds⟩
    simp only [optimize_osd_schedule_with_total] at ht
    rw [hsd] at ht
    cases res with
    | none => exact absurd ht (by simp)
    | some r0 =>
      have := Option.some.inj ht
      rw [← this]
  · have hr : Finset.range 4 = ({0, 1, 2, 3} : Finset Nat) := by decide
    rw [hr]
    simp only [Finset.sup_insert, Finset.sup_singleton]
    unfold totalDaysNeeded
    omega

/-- Concrete horizon-search probe: feasible from horizon 8 on. -/
def horizonProbe0 : Nat → Option CombinedResult :=
  fun d => if 8 ≤ d then some comb0 else none

/-- Witness for C7: the loop facts instantiated on a concrete probe and
the completion formula instantiated on a concrete combined result. -/
theorem C7_horizon_search_witness :
    (searchDays horizonProbe0 1 none =
      if 1 ≤ 365 then searchDays horizonProbe0 (1 + 7) (horizonProbe0 (1 + 7))
      else (none, 1)) ∧
    searchDays horizonProbe0 8 (some comb0) = (some comb0, 8) ∧
    totalDaysNeeded comb0 =
      Finset.sup (Finset.range 4) (fun k => comb0.dispensing.days_used + k) := by
  have h := C7_horizon_search horizonProbe0 1 comb0 3 1
    true true true true true 0 defaultWeights (fun _ =>
      ⟨⟨1, zeroShiftAssign⟩, ⟨1, zeroShiftAssign⟩, ⟨1, zeroTabAssign⟩,
        ⟨1, zeroCoatAssign⟩⟩)
  refine ⟨h.1, ?_, h.2.2.2.2⟩
  exact (C7_horizon_search horizonProbe0 8 comb0 3 1
    true true true true true 0 defaultWeights (fun _ =>
      ⟨⟨1, zeroShiftAssign⟩, ⟨1, zeroShiftAssign⟩, ⟨1, zeroTabAssign⟩,
        ⟨1, zeroCoatAssign⟩⟩)).2.1

/-- C8: model-level feasibility of the constraint systems the aggregator
hands the solver is monotone: a batch count feasible for all four
stages remains feasible for every smaller positive batch count;
moreover whenever a coded stage solve returns a result under the
solver contract, its constraint system is feasible. -/
theorem C8_feasibility_monotone :
    (∀ (B Bp D : Nat) (up uq ui ub ug : Bool),
      1 ≤ Bp → Bp ≤ B →
      osdModelFeasible B D up uq ui ub ug →
      osdModelFeasible Bp D up uq ui ub ug) ∧
    (∀ (B D : Nat) (buf : ℚ) (w : Weights) (og : SolveOutcome ShiftAssign)
      (r : GranResult),
      (og.status = 1 → granConstraints B D og.assign) →
      optimize_granulation B D buf w og = some r →
      granFeasibleModel B D) ∧
    (∀ (B D : Nat) (up uq ui : Bool) (buf : ℚ) (w : Weights)
      (ot : SolveOutcome TabAssign) (r : TabResult),
      (ot.status = 1 → tabConstraints B D up uq ui ot.assign) →
      optimize_tableting B D up uq ui buf w ot = some r →
      tabFeasibleModel B D up uq ui) ∧
    (∀ (B D : Nat) (ub ug : Bool) (buf : ℚ) (w : Weights)
      (oc : SolveOutcome CoatAssign) (r : CoatResult),
      (oc.status = 1 → coatConstraints B D ub ug oc.assign) →
      optimize_coating B D ub ug buf w oc = some r →
      coatFeasibleModel B D ub ug) := by
  refine ⟨?_, ?_, ?_, ?_⟩
  · intro B Bp D up uq ui ub ug _ hle h
    obtain ⟨⟨a1, h1⟩, ⟨a2, h2⟩, ⟨a3, h3⟩, ⟨a4, h4⟩⟩ := h
    exact ⟨⟨a1, hle.trans h1.1, h1.2.1, h1.2.2⟩,
      ⟨a2, hle.trans h2.1, h2.2.1, h2.2.2⟩,
      ⟨a3, hle.trans h3.1, h3.2.1, h3.2.2⟩,
      ⟨a4, hle.trans h4.1, hle.trans h4.2.1, h4.2.2.1, h4.2.2.2⟩⟩
  · intro B D buf w og r hcon hr
    exact ⟨og.assign, hcon (optimize_granulation_some B D buf w og r hr).1⟩
  · intro B D up uq ui buf w ot r hcon hr
    exact ⟨ot.assign, hcon (optimize_tableting_some B D up uq ui buf w ot r hr).1⟩
  · intro B D ub ug buf w oc r hcon hr
    exact ⟨oc.assign, hcon (optimize_coating_some B D ub ug buf w oc r hr).1⟩

/-- Witness for C8: simultaneous feasibility at batch count 3 on a
one-day horizon with all machines enabled, transported down to batch
count 1 by the claim theorem. -/
theorem C8_feasibility_monotone_witness :
    (1 : Nat) ≤ 1 ∧ (1 : Nat) ≤ 3 ∧
    osdModelFeasible 3 1 true true true true true ∧
    osdModelFeasible 1 1 true true true true true := by
  have h3 : osdModelFeasible 3 1 true true true true true := by
    refine ⟨⟨morningShiftAssign, ?_⟩, ⟨morningShiftAssign, ?_⟩,
      ⟨morningTabAssign, ?_⟩, ⟨morningCoatAssign, ?_⟩⟩
    · norm_num [dispConstraints, dispDemandLHS, morningShiftAssign]
    · norm_num [granConstraints, granDemandLHS, morningShiftAssign]
    · norm_num [tabConstraints, tabDemandLHS, tabDayShifts, gate,
        morningTabAssign]
    · norm_num [coatConstraints, coatSolutionLHS, coatCoatingLHS,
        coatDayStaff, coatDayShifts, gate, morningCoatAssign]
  exact ⟨le_rfl, by omega, h3,
    C8_feasibility_monotone.1 3 1 1 true true true true true le_rfl
      (by omega) h3⟩

/-- C9: with every resource toggle disabled, Tableting and Coating reject
structurally for every demand and horizon, before any model is built
and without the solver being invoked. -/
theorem C9_all_resources_disabled :
    ∀ (B D : Nat) (buf : ℚ) (w : Weights) (ot : SolveOutcome TabAssign)
      (oc : SolveOutcome CoatAssign),
      optimize_tableting B D false false false buf w ot = none ∧
      tab_solver_invoked B D false false false = false ∧
      optimize_coating B D false false buf w oc = none ∧
      coat_solver_invoked B D false false = false := by
  intro B D buf w ot oc
  refine ⟨?_, ?_, ?_, ?_⟩
  · simp [optimize_tableting, tab_max_daily_batches, tab_machine_output]
  · simp [tab_solver_invoked, tab_max_daily_batches, tab_machine_output]
  · simp [optimize_coating, coating_machines_used]
  · simp [coat_solver_invoked, coating_machines_used]

/-- C10: Dispensing and Granulation import SOLVER_INSTANCE, and Tableting
imports solver, from PS_GUI3, but PS_GUI3 binds neither name at any
point of its top level; PS_GUI3 itself imports those same stage
modules, closing an import cycle; hence loading any module that
reaches one of those imports (all of them except Coating) raises an
ImportError before any solve can run. -/
theorem C10_import_error_at_load :
    (PyModule.ps_GUI3, "SOLVER_INSTANCE") ∈ fromImports PyModule.dispensing_PS ∧
    (PyModule.ps_GUI3, "SOLVER_INSTANCE") ∈
      fromImports PyModule.granulation_PS ∧
    (PyModule.ps_GUI3, "solver") ∈ fromImports PyModule.tab_PS ∧
    "SOLVER_INSTANCE" ∉ moduleBindings PyModule.ps_GUI3 ∧
    "solver" ∉ moduleBindings PyModule.ps_GUI3 ∧
    PyModule.dispensing_PS ∈ directDeps PyModule.ps_GUI3 ∧
    PyModule.ps_GUI3 ∈ directDeps PyModule.dispensing_PS ∧
    ¬ importOk PyModule.dispensing_PS ∧
    ¬ importOk PyModule.granulation_PS ∧
    ¬ importOk PyModule.tab_PS ∧
    ¬ moduleLoadOk PyModule.dispensing_PS ∧
    ¬ moduleLoadOk PyModule.granulation_PS ∧
    ¬ moduleLoadOk PyModule.tab_PS ∧
    ¬ moduleLoadOk PyModule.formulation_PS ∧
    ¬ moduleLoadOk PyModule.ps_GUI3 ∧
    moduleLoadOk PyModule.coating_PS := by
  decide

end PersonSchedule
